import Mathlib

/-! Projects v2 tools (`pkg/github/projects.go`).

A shallow embedding of the four Projects v2 tool constructors
(`ListProjectV2`, `GetProjectV2`, `AddIssueToProjectV2`, `GetIssueNodeId`) and of the two
response formatters (`formatProjectsV2Response`, `formatSingleProjectV2Response`).

* Go `string` is `String`; `githubv4.Int` (an `int32`) is `Int`; `githubv4.Boolean` is `Bool`.
* `githubv4.ID` is `interface{}`: it is either the nil interface (the Go zero value) or holds
  the JSON string that the GraphQL `ID` scalar is serialised as.
* Effects (calling the client accessor, issuing a query or a mutation) are recorded in an
  explicit trace that every handler returns next to its two Go results.
* The libraries the source calls are embedded by what they do on the calls the source makes:
  `mapstructure.Decode` in its default configuration (an absent key or a nil value leaves the
  field at its zero value, a value of another kind is an error, no weak typing, keys matched
  exactly and then up to `strings.EqualFold`), the `mcp` tool builders, and the `%s`, `%d`,
  `%t`, `%v`, `%w` verbs of `fmt`.
-/

namespace Projects

/-! ## Values and `fmt` verbs -/

/-- Go `githubv4.ID` (`interface{}`): the nil interface or a string. -/
inductive ID where
  | nil
  | str (s : String)
  deriving DecidableEq, Repr

/-- Rendering of `fmt.Sprintf("%s", id)` for a `githubv4.ID`: a string prints as itself, the nil
interface prints as the bad-verb marker of `fmt`. -/
def ID.fmt_s : ID → String
  | .nil => "%!s(<nil>)"
  | .str s => s

/-- Rendering of `fmt.Sprintf("%d", n)` for an unsigned count such as `len(xs)`. -/
def fmt_d_nat (n : Nat) : String := Nat.repr n

/-- Rendering of `fmt.Sprintf("%d", n)` for a signed integer. -/
def fmt_d : Int → String
  | .ofNat n => Nat.repr n
  | .negSucc n => "-" ++ Nat.repr (n + 1)

/-- Rendering of `fmt.Sprintf("%t", b)`. -/
def fmt_t : Bool → String
  | true => "true"
  | false => "false"

/-! ## Query result shapes -/

/-- Element type of `Nodes` in the list query (both branches) and parameter element type of
`formatProjectsV2Response`. -/
structure ProjectNode where
  ID : ID
  Title : String
  Number : Int
  URL : String
  State : String
  deriving DecidableEq, Repr

/-- Element type of `Fields.Nodes` in the detail query. -/
structure FieldNode where
  ID : ID
  Name : String
  deriving DecidableEq, Repr

/-- The `ProjectV2` inline fragment of the node query, parameter type of
`formatSingleProjectV2Response`; `Fields` stands for `Fields.Nodes`. -/
structure ProjectV2 where
  ID : ID
  Title : String
  Number : Int
  URL : String
  State : String
  Public : Bool
  Fields : List FieldNode
  deriving DecidableEq, Repr

/-- The Go zero value of the `ProjectV2` record. -/
def ProjectV2.zero : ProjectV2 :=
  { ID := .nil, Title := "", Number := 0, URL := "", State := "", Public := false, Fields := [] }

/-! ## Formatters -/

/-- One iteration of the `for` loop of `formatProjectsV2Response`: four `result +=` statements. -/
def formatProjectsV2Response.step (result : String) (project : ProjectNode) : String :=
  let result := result ++ ("- **" ++ project.Title ++ "** (#" ++ fmt_d project.Number ++ ")\n")
  let result := result ++ ("  - ID: " ++ project.ID.fmt_s ++ "\n")
  let result := result ++ ("  - State: " ++ project.State ++ "\n")
  let result := result ++ ("  - URL: " ++ project.URL ++ "\n\n")
  result

/-- Embedding of `formatProjectsV2Response`. -/
def formatProjectsV2Response (projects : List ProjectNode) : String :=
  if projects.length = 0 then
    "No Projects v2 found."
  else
    let result := "Found " ++ fmt_d_nat projects.length ++ " Projects v2:\n\n"
    projects.foldl formatProjectsV2Response.step result

/-- One iteration of the custom-field loop of `formatSingleProjectV2Response`. -/
def formatSingleProjectV2Response.step (result : String) (field : FieldNode) : String :=
  result ++ ("- " ++ field.Name ++ " (ID: " ++ field.ID.fmt_s ++ ")\n")

/-- Embedding of `formatSingleProjectV2Response`. -/
def formatSingleProjectV2Response (project : ProjectV2) : String :=
  let result := "**" ++ project.Title ++ "** (#" ++ fmt_d project.Number ++ ")\n"
  let result := result ++ ("- ID: " ++ project.ID.fmt_s ++ "\n")
  let result := result ++ ("- State: " ++ project.State ++ "\n")
  let result := result ++ ("- Public: " ++ fmt_t project.Public ++ "\n")
  let result := result ++ ("- URL: " ++ project.URL ++ "\n")
  if project.Fields.length > 0 then
    let result := result ++ "\n**Custom Fields:**\n"
    project.Fields.foldl formatSingleProjectV2Response.step result
  else
    result

/-! ## Go errors and tool results -/

/-- Go `error` values: a plain error with its `Error()` text, or the wrapping error that
`fmt.Errorf` builds for the `%w` verb. -/
inductive GoError where
  | plain (msg : String)
  | wrapping (msg : String) (inner : GoError)
  deriving DecidableEq, Repr

/-- The `Error()` method. -/
def GoError.Error : GoError → String
  | .plain msg => msg
  | .wrapping msg _ => msg

/-- The `Unwrap()` method, as `errors.Unwrap` sees it. -/
def GoError.Unwrap : GoError → Option GoError
  | .plain _ => none
  | .wrapping _ inner => some inner

/-- Embedding of `fmt.Errorf(text + "%w", err)` for a literal `text`. -/
def Errorf_w (text : String) (err : GoError) : GoError :=
  .wrapping (text ++ err.Error) err

/-- Go `mcp.TextContent`. -/
structure TextContent where
  Kind : String
  Text : String
  deriving DecidableEq, Repr

/-- Go `mcp.CallToolResult`. -/
structure CallToolResult where
  Content : List TextContent
  IsError : Bool
  deriving DecidableEq, Repr

/-- Embedding of `mcp.NewToolResultText`. -/
def NewToolResultText (text : String) : CallToolResult :=
  { Content := [{ Kind := "text", Text := text }], IsError := false }

/-- Embedding of `mcp.NewToolResultError`. -/
def NewToolResultError (text : String) : CallToolResult :=
  { Content := [{ Kind := "text", Text := text }], IsError := true }

/-! ## Argument bag and `mapstructure.Decode` -/

/-- A value of the untyped argument bag `request.Params.Arguments` after JSON decoding.
A JSON number is a Go `float64`; it is carried by `i64`, the result of the Go conversion
`int64(f)`, which is all that the decoder reads of it. -/
inductive ArgValue where
  | null
  | str (s : String)
  | num (i64 : Int)
  | bool (b : Bool)
  | composite
  deriving DecidableEq, Repr

/-- The argument bag, a Go `map[string]interface{}`. -/
abbrev Arguments := List (String × ArgValue)

/-- A field whose supplied value has a kind the decoder cannot convert. -/
structure Mismatch where
  field : String
  expected : String
  got : ArgValue
  deriving DecidableEq, Repr

/-- Simple case folding of one character towards the ASCII letters, as `strings.EqualFold`
compares them: `A` to `Z` fold to `a` to `z`, and the two characters outside ASCII whose fold
orbit holds an ASCII letter fold to it, U+212A (Kelvin sign) to `k` and U+017F (long s) to
`s`. Every tag of the source is ASCII, so a key equals a tag under `strings.EqualFold` exactly
when their foldings by this function agree. -/
def mapstructure.foldChar (c : Char) : Char :=
  if c.toNat = 0x212A then 'k'
  else if c.toNat = 0x017F then 's'
  else c.toLower

/-- Case folding of a key for the fallback comparison (`strings.EqualFold`). -/
def mapstructure.foldCase (s : String) : List Char := s.toList.map mapstructure.foldChar

/-- Key search of `mapstructure` for a struct field tagged `name`: the exact key, and failing
that a key equal to it up to letter case (of several such keys Go takes one in map order; the
first of the list stands for it). -/
def mapstructure.lookupKey (args : Arguments) (name : String) : Option ArgValue :=
  match args.lookup name with
  | some v => some v
  | none =>
    (args.find? (fun kv => mapstructure.foldCase kv.1 == mapstructure.foldCase name)).map
      (fun kv => kv.2)

/-- Go conversion of an `int64` to `int32` (what `reflect.Value.SetInt` stores in an `int32`). -/
def toInt32 (x : Int) : Int := (x + 2 ^ 31) % 2 ^ 32 - 2 ^ 31

/-- Decoding of one `string` field with the default configuration (no weak typing): an absent
key or a nil value leaves the field as it is, a string sets it, anything else is an error. -/
def mapstructure.decodeString (args : Arguments) (name : String) (cur : String) :
    Except Mismatch String :=
  match mapstructure.lookupKey args name with
  | none => .ok cur
  | some .null => .ok cur
  | some (.str s) => .ok s
  | some v => .error { field := name, expected := "string", got := v }

/-- Decoding of one `int32` field with the default configuration: an absent key or a nil value
leaves the field as it is, a number sets it to its integer conversion, anything else is an
error. -/
def mapstructure.decodeInt32 (args : Arguments) (name : String) (cur : Int) :
    Except Mismatch Int :=
  match mapstructure.lookupKey args name with
  | none => .ok cur
  | some .null => .ok cur
  | some (.num i64) => .ok (toInt32 i64)
  | some v => .error { field := name, expected := "int32", got := v }

/-- The mismatch of a field decoding, if any. -/
def mapstructure.errOf {α : Type} : Except Mismatch α → List Mismatch
  | .ok _ => []
  | .error m => [m]

/-- The value of a field after its decoding: the decoded value, or the untouched one. -/
def mapstructure.valOf {α : Type} (cur : α) : Except Mismatch α → α
  | .ok a => a
  | .error _ => cur

/-- `params` of the `list_projects_v2` handler. -/
structure ListParams where
  Owner : String
  OwnerType : String
  deriving DecidableEq, Repr

/-- `params` of the `get_project_v2` handler. -/
structure GetParams where
  ProjectID : String
  deriving DecidableEq, Repr

/-- `params` of the `add_issue_to_project_v2` handler. -/
structure AddParams where
  ProjectID : String
  IssueID : String
  deriving DecidableEq, Repr

/-- `params` of the `get_issue_node_id` handler. -/
structure IssueParams where
  Owner : String
  Repo : String
  IssueNumber : Int
  deriving DecidableEq, Repr

/-- Embedding of `mapstructure.Decode(request.Params.Arguments, &params)` for `ListParams`: every
field is decoded, the errors are collected, and the call fails when there is at least one. -/
def decodeListParams (args : Arguments) : Except (List Mismatch) ListParams :=
  let owner := mapstructure.decodeString args "owner" ""
  let ownerType := mapstructure.decodeString args "owner_type" ""
  match mapstructure.errOf owner ++ mapstructure.errOf ownerType with
  | [] => .ok { Owner := mapstructure.valOf "" owner, OwnerType := mapstructure.valOf "" ownerType }
  | e :: es => .error (e :: es)

/-- Embedding of `mapstructure.Decode(request.Params.Arguments, &params)` for `GetParams`. -/
def decodeGetParams (args : Arguments) : Except (List Mismatch) GetParams :=
  let projectID := mapstructure.decodeString args "project_id" ""
  match mapstructure.errOf projectID with
  | [] => .ok { ProjectID := mapstructure.valOf "" projectID }
  | e :: es => .error (e :: es)

/-- Embedding of `mapstructure.Decode(request.Params.Arguments, &params)` for `AddParams`. -/
def decodeAddParams (args : Arguments) : Except (List Mismatch) AddParams :=
  let projectID := mapstructure.decodeString args "project_id" ""
  let issueID := mapstructure.decodeString args "issue_id" ""
  match mapstructure.errOf projectID ++ mapstructure.errOf issueID with
  | [] => .ok { ProjectID := mapstructure.valOf "" projectID, IssueID := mapstructure.valOf "" issueID }
  | e :: es => .error (e :: es)

/-- Embedding of `mapstructure.Decode(request.Params.Arguments, &params)` for `IssueParams`. -/
def decodeIssueParams (args : Arguments) : Except (List Mismatch) IssueParams :=
  let owner := mapstructure.decodeString args "owner" ""
  let repo := mapstructure.decodeString args "repo" ""
  let issueNumber := mapstructure.decodeInt32 args "issue_number" 0
  match mapstructure.errOf owner ++ mapstructure.errOf repo ++ mapstructure.errOf issueNumber with
  | [] => .ok { Owner := mapstructure.valOf "" owner, Repo := mapstructure.valOf "" repo,
                IssueNumber := mapstructure.valOf 0 issueNumber }
  | e :: es => .error (e :: es)

/-! ## GraphQL client -/

/-- A value of the `variables` / `input` maps handed to the client. -/
inductive GQLValue where
  | String (s : String)
  | ID (id : ID)
  | Int (n : Int)
  deriving DecidableEq, Repr

/-- The `variables` (or mutation `input`) map, in source order. -/
abbrev Variables := List (String × GQLValue)

/-- The `query` struct of the list handler: the nodes of its two branches. -/
structure ListQuery where
  OrganizationNodes : List ProjectNode
  UserNodes : List ProjectNode
  deriving DecidableEq, Repr

/-- The `query.Repository.Issue` struct of the issue handler. -/
structure IssueQuery where
  ID : ID
  Number : Int
  Title : String
  deriving DecidableEq, Repr

/-- The GraphQL client: `Query` for each of the three query structs and `Mutate` for the
mutation struct. Each call returns the struct as the client left it together with the Go
error, `none` for a nil error. -/
structure Client where
  QueryList : Variables → ListQuery × Option GoError
  QueryNode : Variables → ProjectV2 × Option GoError
  QueryIssue : Variables → IssueQuery × Option GoError
  MutateAddItem : Variables → ID × Option GoError

/-- The injected client accessor `getGQLClient(ctx)`: a client or a Go error. -/
abbrev GetGQLClientFn := Except GoError Client

/-- Which struct a `Query` call was given. -/
inductive QueryShape where
  | list
  | node
  | issue
  deriving DecidableEq, Repr

/-- The effects a handler performs, in order. -/
inductive Event where
  | GetGQLClient
  | Query (shape : QueryShape) (vars : Variables)
  | Mutate (input : Variables)
  deriving DecidableEq, Repr

/-- What a handler call yields: its two Go results and the trace of its effects. -/
structure Run where
  result : Option CallToolResult
  err : Option GoError
  trace : List Event
  deriving DecidableEq, Repr

/-! ## Handlers -/

/-- Embedding of the handler returned by `ListProjectV2`. `errText` is the `Error()` text of
the error value `mapstructure.Decode` returns, whose wording belongs to that library. -/
def ListProjectV2.handler (errText : List Mismatch → String) (getGQLClient : GetGQLClientFn)
    (args : Arguments) : Run :=
  match decodeListParams args with
  | .error err => { result := some (NewToolResultError (errText err)), err := none, trace := [] }
  | .ok params =>
    match getGQLClient with
    | .error err =>
      { result := none, err := some (Errorf_w "failed to get GitHub GraphQL client: " err),
        trace := [.GetGQLClient] }
    | .ok client =>
      let vars : Variables := [("login", .String params.Owner)]
      match client.QueryList vars with
      | (_, some err) =>
        { result := some (NewToolResultError ("Failed to query projects v2: " ++ err.Error)),
          err := none, trace := [.GetGQLClient, .Query .list vars] }
      | (query, none) =>
        if params.OwnerType = "organization" then
          { result := some (NewToolResultText (formatProjectsV2Response query.OrganizationNodes)),
            err := none, trace := [.GetGQLClient, .Query .list vars] }
        else
          { result := some (NewToolResultText (formatProjectsV2Response query.UserNodes)),
            err := none, trace := [.GetGQLClient, .Query .list vars] }

/-- Embedding of the handler returned by `GetProjectV2`. -/
def GetProjectV2.handler (errText : List Mismatch → String) (getGQLClient : GetGQLClientFn)
    (args : Arguments) : Run :=
  match decodeGetParams args with
  | .error err => { result := some (NewToolResultError (errText err)), err := none, trace := [] }
  | .ok params =>
    match getGQLClient with
    | .error err =>
      { result := none, err := some (Errorf_w "failed to get GitHub GraphQL client: " err),
        trace := [.GetGQLClient] }
    | .ok client =>
      let vars : Variables := [("id", .ID (.str params.ProjectID))]
      match client.QueryNode vars with
      | (_, some err) =>
        { result := some (NewToolResultError ("Failed to query project v2: " ++ err.Error)),
          err := none, trace := [.GetGQLClient, .Query .node vars] }
      | (query, none) =>
        { result := some (NewToolResultText (formatSingleProjectV2Response query)),
          err := none, trace := [.GetGQLClient, .Query .node vars] }

/-- Embedding of the handler returned by `AddIssueToProjectV2`; `mutation` is
`mutation.AddProjectV2ItemById.Item.ID`. -/
def AddIssueToProjectV2.handler (errText : List Mismatch → String)
    (getGQLClient : GetGQLClientFn) (args : Arguments) : Run :=
  match decodeAddParams args with
  | .error err => { result := some (NewToolResultError (errText err)), err := none, trace := [] }
  | .ok params =>
    match getGQLClient with
    | .error err =>
      { result := none, err := some (Errorf_w "failed to get GitHub GraphQL client: " err),
        trace := [.GetGQLClient] }
    | .ok client =>
      let input : Variables :=
        [("projectId", .ID (.str params.ProjectID)), ("contentId", .ID (.str params.IssueID))]
      match client.MutateAddItem input with
      | (_, some err) =>
        { result := some (NewToolResultError ("Failed to add issue to project v2: " ++ err.Error)),
          err := none, trace := [.GetGQLClient, .Mutate input] }
      | (mutation, none) =>
        { result := some (NewToolResultText
            ("Successfully added issue to project v2. Item ID: " ++ mutation.fmt_s)),
          err := none, trace := [.GetGQLClient, .Mutate input] }

/-- Embedding of the handler returned by `GetIssueNodeId`; `query` is
`query.Repository.Issue`. -/
def GetIssueNodeId.handler (errText : List Mismatch → String) (getGQLClient : GetGQLClientFn)
    (args : Arguments) : Run :=
  match decodeIssueParams args with
  | .error err => { result := some (NewToolResultError (errText err)), err := none, trace := [] }
  | .ok params =>
    match getGQLClient with
    | .error err =>
      { result := none, err := some (Errorf_w "failed to get GitHub GraphQL client: " err),
        trace := [.GetGQLClient] }
    | .ok client =>
      let vars : Variables :=
        [("owner", .String params.Owner), ("name", .String params.Repo),
         ("issue_number", .Int params.IssueNumber)]
      match client.QueryIssue vars with
      | (_, some err) =>
        { result := some (NewToolResultError ("Failed to get issue node ID: " ++ err.Error)),
          err := none, trace := [.GetGQLClient, .Query .issue vars] }
      | (query, none) =>
        let result := "Issue #" ++ fmt_d query.Number ++ ": " ++ query.Title ++ "\nNode ID: "
          ++ query.ID.fmt_s
        { result := some (NewToolResultText result), err := none,
          trace := [.GetGQLClient, .Query .issue vars] }

/-! ## Tool declarations -/

/-- Go `mcp.ToolAnnotation`, the fields the source sets. `ReadOnlyHint` is a `*bool`. -/
structure ToolAnnotation where
  Title : String
  ReadOnlyHint : Option Bool
  deriving DecidableEq, Repr

/-- The JSON-schema object of one property while its options are applied. -/
structure PropertySchema where
  type : String
  description : Option String
  required : Bool
  deriving DecidableEq, Repr

/-- Go `mcp.ToolInputSchema`. -/
structure ToolInputSchema where
  Properties : List (String × PropertySchema)
  Required : List String
  deriving DecidableEq, Repr

/-- Go `mcp.Tool`. -/
structure Tool where
  Name : String
  Description : String
  InputSchema : ToolInputSchema
  Annotations : ToolAnnotation
  deriving DecidableEq, Repr

/-- Embedding of `ToBoolPtr`. -/
def ToBoolPtr (b : Bool) : Option Bool := some b

/-- Embedding of `mcp.Required()`. -/
def Required (schema : PropertySchema) : PropertySchema := { schema with required := true }

/-- Embedding of `mcp.Description(desc)`. -/
def Description (desc : String) (schema : PropertySchema) : PropertySchema :=
  { schema with description := some desc }

/-- Assignment `m[key] = value` on a Go map kept as an association list. -/
def setKey {α : Type} (m : List (String × α)) (key : String) (value : α) : List (String × α) :=
  if m.any (fun kv => kv.1 == key) then
    m.map (fun kv => if kv.1 == key then (key, value) else kv)
  else
    m ++ [(key, value)]

/-- Shared body of `mcp.WithString` and `mcp.WithNumber`: apply the property options, move a
set `required` flag to the `Required` list of the tool, store the property. -/
def withProperty (type : String) (name : String) (opts : List (PropertySchema → PropertySchema))
    (t : Tool) : Tool :=
  let schema := opts.foldl (fun s opt => opt s) { type := type, description := none, required := false }
  let req := if schema.required then t.InputSchema.Required ++ [name] else t.InputSchema.Required
  { t with InputSchema :=
      { Properties := setKey t.InputSchema.Properties name { schema with required := false },
        Required := req } }

/-- Embedding of `mcp.WithString`. -/
def WithString (name : String) (opts : List (PropertySchema → PropertySchema)) : Tool → Tool :=
  withProperty "string" name opts

/-- Embedding of `mcp.WithNumber`. -/
def WithNumber (name : String) (opts : List (PropertySchema → PropertySchema)) : Tool → Tool :=
  withProperty "number" name opts

/-- Embedding of `mcp.WithDescription`. -/
def WithDescription (description : String) (t : Tool) : Tool :=
  { t with Description := description }

/-- Embedding of `mcp.WithToolAnnotation`. -/
def WithToolAnnotation (ann : ToolAnnotation) (t : Tool) : Tool :=
  { t with Annotations := ann }

/-- Embedding of `mcp.NewTool`: an empty object schema, the default annotations, then the
options in order. -/
def NewTool (name : String) (opts : List (Tool → Tool)) : Tool :=
  opts.foldl (fun t opt => opt t)
    { Name := name, Description := "",
      InputSchema := { Properties := [], Required := [] },
      Annotations := { Title := "", ReadOnlyHint := ToBoolPtr false } }

/-- Embedding of the tool returned by `ListProjectV2`; `t` is the translation helper. -/
def ListProjectV2.tool (t : String → String → String) : Tool :=
  NewTool "list_projects_v2"
    [ WithDescription (t "TOOL_LIST_PROJECTS_V2_DESCRIPTION" "List Projects v2 for an organization or user."),
      WithToolAnnotation { Title := t "TOOL_LIST_PROJECTS_V2_USER_TITLE" "List Projects v2",
                           ReadOnlyHint := ToBoolPtr true },
      WithString "owner" [Required, Description "Organization or user login"],
      WithString "owner_type" [Required, Description "Owner type: organization or user"] ]

/-- Embedding of the tool returned by `GetProjectV2`. -/
def GetProjectV2.tool (t : String → String → String) : Tool :=
  NewTool "get_project_v2"
    [ WithDescription (t "TOOL_GET_PROJECT_V2_DESCRIPTION" "Get details of a specific Projects v2."),
      WithToolAnnotation { Title := t "TOOL_GET_PROJECT_V2_USER_TITLE" "Get Projects v2 details",
                           ReadOnlyHint := ToBoolPtr true },
      WithString "project_id" [Required, Description "Projects v2 ID"] ]

/-- Embedding of the tool returned by `AddIssueToProjectV2`. -/
def AddIssueToProjectV2.tool (t : String → String → String) : Tool :=
  NewTool "add_issue_to_project_v2"
    [ WithDescription (t "TOOL_ADD_ISSUE_TO_PROJECT_V2_DESCRIPTION" "Add an issue to a Projects v2."),
      WithToolAnnotation { Title := t "TOOL_ADD_ISSUE_TO_PROJECT_V2_USER_TITLE" "Add issue to Projects v2",
                           ReadOnlyHint := ToBoolPtr false },
      WithString "project_id" [Required, Description "Projects v2 ID"],
      WithString "issue_id" [Required, Description "Issue ID"] ]

/-- Embedding of the tool returned by `GetIssueNodeId`. -/
def GetIssueNodeId.tool (t : String → String → String) : Tool :=
  NewTool "get_issue_node_id"
    [ WithDescription (t "TOOL_GET_ISSUE_NODE_ID_DESCRIPTION" "Get the node ID of an issue for use with Projects v2."),
      WithToolAnnotation { Title := t "TOOL_GET_ISSUE_NODE_ID_USER_TITLE" "Get issue node ID",
                           ReadOnlyHint := ToBoolPtr true },
      WithString "owner" [Required, Description "Repository owner"],
      WithString "repo" [Required, Description "Repository name"],
      WithNumber "issue_number" [Required, Description "Issue number"] ]

/-- A stub client answering every call with the given structs and errors. -/
def stubClient (lq : ListQuery × Option GoError) (nq : ProjectV2 × Option GoError)
    (iq : IssueQuery × Option GoError) (am : ID × Option GoError) : Client :=
  { QueryList := fun _ => lq, QueryNode := fun _ => nq, QueryIssue := fun _ => iq,
    MutateAddItem := fun _ => am }

/-! ## Report templates, as the specification words them -/

/-- The item block of one project in the list report: title and number on the first line, then
id, state and url. -/
def itemBlock (p : ProjectNode) : String :=
  "- **" ++ p.Title ++ "** (#" ++ fmt_d p.Number ++ ")\n"
    ++ "  - ID: " ++ p.ID.fmt_s ++ "\n"
    ++ "  - State: " ++ p.State ++ "\n"
    ++ "  - URL: " ++ p.URL ++ "\n\n"

/-- The line of one custom field in the detail report. -/
def fieldLine (f : FieldNode) : String :=
  "- " ++ f.Name ++ " (ID: " ++ f.ID.fmt_s ++ ")\n"

/-- The five leading lines of the detail report: header, ID, State, Public, URL. -/
def detailLines (id : ID) (title : String) (number : Int) (url state : String) (pub : Bool) :
    String :=
  "**" ++ title ++ "** (#" ++ fmt_d number ++ ")\n"
    ++ "- ID: " ++ id.fmt_s ++ "\n"
    ++ "- State: " ++ state ++ "\n"
    ++ "- Public: " ++ fmt_t pub ++ "\n"
    ++ "- URL: " ++ url ++ "\n"

/-! ## Lemmas on string accumulation -/

theorem foldl_append_init (l : List String) (init : String) :
    l.foldl (fun r s => r ++ s) init = init ++ String.join l := by
  induction l generalizing init with
  | nil => simp [String.join]
  | cons a l ih =>
    simp only [List.foldl_cons, String.join]
    rw [ih (init ++ a), ih ("" ++ a)]
    simp [String.append_assoc]

theorem join_cons (a : String) (l : List String) :
    String.join (a :: l) = a ++ String.join l := by
  simp only [String.join, List.foldl_cons]
  rw [foldl_append_init l ("" ++ a)]
  simp [String.join]

theorem foldl_accumulate {α : Type} (f : α → String) (l : List α) (init : String) :
    l.foldl (fun r a => r ++ f a) init = init ++ String.join (l.map f) := by
  induction l generalizing init with
  | nil => simp [String.join]
  | cons a l ih =>
    simp only [List.foldl_cons, List.map_cons]
    rw [ih, join_cons, String.append_assoc]

theorem formatProjectsV2Response_step_append (result : String) (project : ProjectNode) :
    formatProjectsV2Response.step result project = result ++ itemBlock project := by
  simp only [formatProjectsV2Response.step, itemBlock, String.append_assoc]

theorem formatSingleProjectV2Response_step_append (result : String) (field : FieldNode) :
    formatSingleProjectV2Response.step result field = result ++ fieldLine field := by
  simp [formatSingleProjectV2Response.step, fieldLine]

/-! ## Claims -/

/-- C1: `formatProjectsV2Response` is exactly "No Projects v2 found." on the empty list, and on
a list of N > 0 projects it is the header "Found N Projects v2:" (N the length, in decimal)
and a blank line, followed by the item blocks of the projects, one per project, in the input
order, nothing sorted or removed. -/
theorem C1_formatProjectsV2Response_report :
    formatProjectsV2Response [] = "No Projects v2 found." ∧
    ∀ (p : ProjectNode) (ps : List ProjectNode),
      formatProjectsV2Response (p :: ps)
        = "Found " ++ Nat.repr (p :: ps).length ++ " Projects v2:\n\n"
            ++ String.join ((p :: ps).map itemBlock)
      ∧ ((p :: ps).map itemBlock).length = (p :: ps).length
      ∧ itemBlock p = "- **" ++ p.Title ++ "** (#" ++ fmt_d p.Number ++ ")\n  - ID: "
            ++ p.ID.fmt_s ++ "\n  - State: " ++ p.State ++ "\n  - URL: " ++ p.URL ++ "\n\n" := by
  refine ⟨by decide, fun p ps => ⟨?_, by simp, ?_⟩⟩
  · have hfun : formatProjectsV2Response.step = fun r a => r ++ itemBlock a := by
      funext r a
      exact formatProjectsV2Response_step_append r a
    have hlen : ¬ ((p :: ps).length = 0) := by simp
    unfold formatProjectsV2Response
    rw [if_neg hlen]
    simp only [hfun, fmt_d_nat]
    exact foldl_accumulate itemBlock (p :: ps) _
  · simp [itemBlock, String.append_assoc]

/-- C2: `formatSingleProjectV2Response` starts with the title/number header line and the ID,
State, Public and URL lines in that order; with no custom field the report ends there, and
with at least one it goes on with the "**Custom Fields:**" section holding one line
"- name (ID: id)" per field in the input order. -/
theorem C2_formatSingleProjectV2Response_report
    (id : ID) (title : String) (number : Int) (url state : String) (pub : Bool) :
    formatSingleProjectV2Response
        { ID := id, Title := title, Number := number, URL := url, State := state,
          Public := pub, Fields := [] }
      = detailLines id title number url state pub
    ∧ (∀ (f : FieldNode) (fs : List FieldNode),
        formatSingleProjectV2Response
            { ID := id, Title := title, Number := number, URL := url, State := state,
              Public := pub, Fields := f :: fs }
          = detailLines id title number url state pub ++ "\n**Custom Fields:**\n"
              ++ String.join ((f :: fs).map fieldLine)
        ∧ ((f :: fs).map fieldLine).length = (f :: fs).length
        ∧ fieldLine f = "- " ++ f.Name ++ " (ID: " ++ f.ID.fmt_s ++ ")\n")
    ∧ detailLines id title number url state pub
        = "**" ++ title ++ "** (#" ++ fmt_d number ++ ")\n- ID: " ++ id.fmt_s ++ "\n- State: "
            ++ state ++ "\n- Public: " ++ fmt_t pub ++ "\n- URL: " ++ url ++ "\n" := by
  refine ⟨?_, fun f fs => ⟨?_, by simp, rfl⟩, ?_⟩
  · simp only [formatSingleProjectV2Response, detailLines, String.append_assoc, List.length_nil,
      gt_iff_lt, lt_self_iff_false, if_false]
  · have hfun : formatSingleProjectV2Response.step = fun r a => r ++ fieldLine a := by
      funext r a
      exact formatSingleProjectV2Response_step_append r a
    have hlen : (f :: fs).length > 0 := by simp
    unfold formatSingleProjectV2Response
    simp only [hlen, if_true, hfun]
    rw [foldl_accumulate fieldLine (f :: fs) _]
    simp only [detailLines, String.append_assoc]
  · simp [detailLines, String.append_assoc]

/-- C3: after a successful issue query the result of the `get_issue_node_id` handler is a
text result of two lines separated by one line break, "Issue #number: title" and
"Node ID: id", and the hard error is nil. -/
theorem C3_GetIssueNodeId_two_line_text (errText : List Mismatch → String) (client : Client)
    (args : Arguments) (params : IssueParams) (query : IssueQuery)
    (hbind : decodeIssueParams args = .ok params)
    (hquery : client.QueryIssue
        [("owner", .String params.Owner), ("name", .String params.Repo),
         ("issue_number", .Int params.IssueNumber)] = (query, none)) :
    (GetIssueNodeId.handler errText (.ok client) args).result
        = some (NewToolResultText
            (("Issue #" ++ fmt_d query.Number ++ ": " ++ query.Title) ++ "\n"
              ++ ("Node ID: " ++ query.ID.fmt_s)))
      ∧ (GetIssueNodeId.handler errText (.ok client) args).err = none := by
  have hlit : ∀ x : String, "\n" ++ ("Node ID: " ++ x) = "\nNode ID: " ++ x := fun x => by
    rw [← String.append_assoc]
    rfl
  simp [GetIssueNodeId.handler, hbind, hquery, String.append_assoc, hlit]

/-- C3 at the issue number 42, title "Fix bug", id "I_kwDOA". -/
theorem C3_GetIssueNodeId_two_line_text_witness :
    (GetIssueNodeId.handler (fun _ => "decode error")
        (.ok (stubClient (⟨[], []⟩, none) (ProjectV2.zero, none)
          (⟨.str "I_kwDOA", 42, "Fix bug"⟩, none) (.nil, none)))
        [("owner", .str "octo"), ("repo", .str "hello"), ("issue_number", .num 42)]).result
      = some (NewToolResultText "Issue #42: Fix bug\nNode ID: I_kwDOA") :=
  (C3_GetIssueNodeId_two_line_text (fun _ => "decode error")
    (stubClient (⟨[], []⟩, none) (ProjectV2.zero, none)
      (⟨.str "I_kwDOA", 42, "Fix bug"⟩, none) (.nil, none))
    [("owner", .str "octo"), ("repo", .str "hello"), ("issue_number", .num 42)]
    ⟨"octo", "hello", 42⟩ ⟨.str "I_kwDOA", 42, "Fix bug"⟩ rfl rfl).1.trans (by decide)

/-- A field tag that no key of the bag matches is not a decoding error: the string field keeps
the value it has. -/
theorem decodeString_of_missing (args : Arguments) (name cur : String)
    (h : mapstructure.lookupKey args name = none) :
    mapstructure.decodeString args name cur = .ok cur := by
  simp [mapstructure.decodeString, h]

/-- When the bag has a string `owner` and no key matching `owner_type`, the `list_projects_v2`
handler reports no binding error: it calls the client accessor, and returns the hard error of
a failing accessor. -/
theorem ListProjectV2_missing_owner_type_reaches_accessor (errText : List Mismatch → String)
    (e : GoError) (args : Arguments) (owner : String)
    (howner : mapstructure.lookupKey args "owner" = some (.str owner))
    (htype : mapstructure.lookupKey args "owner_type" = none) :
    ListProjectV2.handler errText (.error e) args
      = { result := none, err := some (Errorf_w "failed to get GitHub GraphQL client: " e),
          trace := [.GetGQLClient] } := by
  have hbind : decodeListParams args = .ok { Owner := owner, OwnerType := "" } := by
    simp [decodeListParams, mapstructure.decodeString, howner, htype, mapstructure.errOf,
      mapstructure.valOf]
  simp [ListProjectV2.handler, hbind]

/-- When the bag has a string `project_id` and no key matching `issue_id`, the
`add_issue_to_project_v2` handler reports no binding error: it calls the client accessor and
sends the mutation with an empty `contentId`. -/
theorem AddIssueToProjectV2_missing_issue_id_mutates (errText : List Mismatch → String)
    (client : Client) (args : Arguments) (projectId : String)
    (hproject : mapstructure.lookupKey args "project_id" = some (.str projectId))
    (hissue : mapstructure.lookupKey args "issue_id" = none) :
    (AddIssueToProjectV2.handler errText (.ok client) args).trace
      = [.GetGQLClient, .Mutate
          [("projectId", .ID (.str projectId)), ("contentId", .ID (.str ""))]] := by
  have hbind : decodeAddParams args = .ok { ProjectID := projectId, IssueID := "" } := by
    simp [decodeAddParams, mapstructure.decodeString, hproject, hissue, mapstructure.errOf,
      mapstructure.valOf]
  simp only [AddIssueToProjectV2.handler, hbind]
  cases hm : client.MutateAddItem
      [("projectId", GQLValue.ID (ID.str projectId)), ("contentId", GQLValue.ID (ID.str ""))] with
  | mk item err => cases err <;> simp [hm]

/-- C4, the handlers at bags that lack a required parameter: no soft error is returned and the
client accessor is invoked. With `owner_type` missing the `list_projects_v2` handler returns
the hard error of a failing accessor, and with a working client it issues the query and reports
the user branch; with `issue_id` missing the `add_issue_to_project_v2` handler sends the
mutation with an empty `contentId`; with an empty bag `get_project_v2` and `get_issue_node_id`
call the accessor too. -/
theorem C4_missing_parameter_reaches_accessor :
    ListProjectV2.handler (fun _ => "decode error") (.error (.plain "no token"))
        [("owner", .str "octo")]
      = { result := none,
          err := some (.wrapping "failed to get GitHub GraphQL client: no token"
                  (.plain "no token")),
          trace := [.GetGQLClient] }
    ∧ ListProjectV2.handler (fun _ => "decode error")
        (.ok (stubClient (⟨[], []⟩, none) (ProjectV2.zero, none) (⟨.nil, 0, ""⟩, none)
          (.nil, none)))
        [("owner", .str "octo")]
      = { result := some (NewToolResultText "No Projects v2 found."), err := none,
          trace := [.GetGQLClient, .Query .list [("login", .String "octo")]] }
    ∧ AddIssueToProjectV2.handler (fun _ => "decode error")
        (.ok (stubClient (⟨[], []⟩, none) (ProjectV2.zero, none) (⟨.nil, 0, ""⟩, none)
          (.str "PVTI_1", none)))
        [("project_id", .str "PVT_1")]
      = { result := some (NewToolResultText
            "Successfully added issue to project v2. Item ID: PVTI_1"),
          err := none,
          trace := [.GetGQLClient, .Mutate
            [("projectId", .ID (.str "PVT_1")), ("contentId", .ID (.str ""))]] }
    ∧ (GetProjectV2.handler (fun _ => "decode error") (.error (.plain "no token")) []).trace
      = [.GetGQLClient]
    ∧ (GetIssueNodeId.handler (fun _ => "decode error") (.error (.plain "no token")) []).trace
      = [.GetGQLClient] := by
  refine ⟨by decide, by decide, by decide, by decide, by decide⟩

/-- C5: for each of the four handlers and every bag that decodes, when the client accessor
returns the error `e` the handler returns a nil result and the hard error
"failed to get GitHub GraphQL client: " followed by the text of `e`, which unwraps to `e`; the
accessor call is the only effect, so no query or mutation is issued and nothing is formatted. -/
theorem C5_accessor_error_is_hard_error (errText : List Mismatch → String) (e : GoError)
    (args : Arguments) :
    (∀ params, decodeListParams args = .ok params →
      ListProjectV2.handler errText (.error e) args
        = { result := none, err := some (Errorf_w "failed to get GitHub GraphQL client: " e),
            trace := [.GetGQLClient] })
    ∧ (∀ params, decodeGetParams args = .ok params →
      GetProjectV2.handler errText (.error e) args
        = { result := none, err := some (Errorf_w "failed to get GitHub GraphQL client: " e),
            trace := [.GetGQLClient] })
    ∧ (∀ params, decodeIssueParams args = .ok params →
      GetIssueNodeId.handler errText (.error e) args
        = { result := none, err := some (Errorf_w "failed to get GitHub GraphQL client: " e),
            trace := [.GetGQLClient] })
    ∧ (∀ params, decodeAddParams args = .ok params →
      AddIssueToProjectV2.handler errText (.error e) args
        = { result := none, err := some (Errorf_w "failed to get GitHub GraphQL client: " e),
            trace := [.GetGQLClient] })
    ∧ (Errorf_w "failed to get GitHub GraphQL client: " e).Unwrap = some e
    ∧ (Errorf_w "failed to get GitHub GraphQL client: " e).Error
        = "failed to get GitHub GraphQL client: " ++ e.Error := by
  refine ⟨fun p h => ?_, fun p h => ?_, fun p h => ?_, fun p h => ?_, rfl, rfl⟩
  · simp [ListProjectV2.handler, h]
  · simp [GetProjectV2.handler, h]
  · simp [GetIssueNodeId.handler, h]
  · simp [AddIssueToProjectV2.handler, h]

/-- C5 at well-formed bags of the four tools and the accessor error "no token". -/
theorem C5_accessor_error_is_hard_error_witness :
    (ListProjectV2.handler (fun _ => "decode error") (.error (.plain "no token"))
        [("owner", .str "octo"), ("owner_type", .str "user")]).err
      = some (.wrapping "failed to get GitHub GraphQL client: no token" (.plain "no token"))
    ∧ (GetProjectV2.handler (fun _ => "decode error") (.error (.plain "no token"))
        [("project_id", .str "PVT_1")]).result = none
    ∧ (GetIssueNodeId.handler (fun _ => "decode error") (.error (.plain "no token"))
        [("owner", .str "octo"), ("repo", .str "hello"), ("issue_number", .num 42)]).trace
      = [.GetGQLClient]
    ∧ (AddIssueToProjectV2.handler (fun _ => "decode error") (.error (.plain "no token"))
        [("project_id", .str "PVT_1"), ("issue_id", .str "I_1")]).trace = [.GetGQLClient] :=
  ⟨congrArg Run.err ((C5_accessor_error_is_hard_error (fun _ => "decode error")
      (.plain "no token") [("owner", .str "octo"), ("owner_type", .str "user")]).1
        ⟨"octo", "user"⟩ rfl),
   congrArg Run.result ((C5_accessor_error_is_hard_error (fun _ => "decode error")
      (.plain "no token") [("project_id", .str "PVT_1")]).2.1 ⟨"PVT_1"⟩ rfl),
   congrArg Run.trace ((C5_accessor_error_is_hard_error (fun _ => "decode error")
      (.plain "no token")
      [("owner", .str "octo"), ("repo", .str "hello"), ("issue_number", .num 42)]).2.2.1
        ⟨"octo", "hello", 42⟩ rfl),
   congrArg Run.trace ((C5_accessor_error_is_hard_error (fun _ => "decode error")
      (.plain "no token") [("project_id", .str "PVT_1"), ("issue_id", .str "I_1")]).2.2.2.1
        ⟨"PVT_1", "I_1"⟩ rfl)⟩

/-- C6: for each of the four handlers, when the bag decodes and the client is obtained but the
query or mutation returns the error `e`, the handler returns a tool-level error result whose
text is the handler's failure label followed by the text of `e`, with a nil hard error; the
result is the same whatever data the client left in the response struct, and the trace holds
the accessor call and exactly one query or mutation. -/
theorem C6_query_error_is_soft_error (errText : List Mismatch → String) (client : Client)
    (args : Arguments) (e : GoError) :
    (∀ (params : ListParams) (data : ListQuery), decodeListParams args = .ok params →
      client.QueryList [("login", .String params.Owner)] = (data, some e) →
      ListProjectV2.handler errText (.ok client) args
        = { result := some (NewToolResultError ("Failed to query projects v2: " ++ e.Error)),
            err := none,
            trace := [.GetGQLClient, .Query .list [("login", .String params.Owner)]] })
    ∧ (∀ (params : GetParams) (data : ProjectV2), decodeGetParams args = .ok params →
      client.QueryNode [("id", .ID (.str params.ProjectID))] = (data, some e) →
      GetProjectV2.handler errText (.ok client) args
        = { result := some (NewToolResultError ("Failed to query project v2: " ++ e.Error)),
            err := none,
            trace := [.GetGQLClient, .Query .node [("id", .ID (.str params.ProjectID))]] })
    ∧ (∀ (params : IssueParams) (data : IssueQuery), decodeIssueParams args = .ok params →
      client.QueryIssue
          [("owner", .String params.Owner), ("name", .String params.Repo),
           ("issue_number", .Int params.IssueNumber)] = (data, some e) →
      GetIssueNodeId.handler errText (.ok client) args
        = { result := some (NewToolResultError ("Failed to get issue node ID: " ++ e.Error)),
            err := none,
            trace := [.GetGQLClient, .Query .issue
              [("owner", .String params.Owner), ("name", .String params.Repo),
               ("issue_number", .Int params.IssueNumber)]] })
    ∧ (∀ (params : AddParams) (data : ID), decodeAddParams args = .ok params →
      client.MutateAddItem
          [("projectId", .ID (.str params.ProjectID)), ("contentId", .ID (.str params.IssueID))]
        = (data, some e) →
      AddIssueToProjectV2.handler errText (.ok client) args
        = { result := some (NewToolResultError
              ("Failed to add issue to project v2: " ++ e.Error)),
            err := none,
            trace := [.GetGQLClient, .Mutate
              [("projectId", .ID (.str params.ProjectID)),
               ("contentId", .ID (.str params.IssueID))]] }) := by
  refine ⟨fun p d h hq => ?_, fun p d h hq => ?_, fun p d h hq => ?_, fun p d h hq => ?_⟩
  · simp [ListProjectV2.handler, h, hq]
  · simp [GetProjectV2.handler, h, hq]
  · simp [GetIssueNodeId.handler, h, hq]
  · simp [AddIssueToProjectV2.handler, h, hq]

/-- C6 at a client whose every call fails with "rate limited" after leaving data in the
response struct: none of that data is in the results. -/
theorem C6_query_error_is_soft_error_witness :
    ListProjectV2.handler (fun _ => "decode error")
        (.ok (stubClient (⟨[⟨.str "PVT_1", "Roadmap", 7, "https://x/7", "OPEN"⟩], []⟩,
            some (.plain "rate limited"))
          (ProjectV2.zero, some (.plain "rate limited"))
          (⟨.str "I_1", 42, "Fix bug"⟩, some (.plain "rate limited"))
          (.str "PVTI_1", some (.plain "rate limited"))))
        [("owner", .str "octo"), ("owner_type", .str "organization")]
      = { result := some (NewToolResultError "Failed to query projects v2: rate limited"),
          err := none, trace := [.GetGQLClient, .Query .list [("login", .String "octo")]] }
    ∧ AddIssueToProjectV2.handler (fun _ => "decode error")
        (.ok (stubClient (⟨[⟨.str "PVT_1", "Roadmap", 7, "https://x/7", "OPEN"⟩], []⟩,
            some (.plain "rate limited"))
          (ProjectV2.zero, some (.plain "rate limited"))
          (⟨.str "I_1", 42, "Fix bug"⟩, some (.plain "rate limited"))
          (.str "PVTI_1", some (.plain "rate limited"))))
        [("project_id", .str "PVT_1"), ("issue_id", .str "I_1")]
      = { result := some (NewToolResultError
            "Failed to add issue to project v2: rate limited"),
          err := none,
          trace := [.GetGQLClient, .Mutate
            [("projectId", .ID (.str "PVT_1")), ("contentId", .ID (.str "I_1"))]] } :=
  ⟨(C6_query_error_is_soft_error (fun _ => "decode error") _
      [("owner", .str "octo"), ("owner_type", .str "organization")] (.plain "rate limited")).1
      ⟨"octo", "organization"⟩ ⟨[⟨.str "PVT_1", "Roadmap", 7, "https://x/7", "OPEN"⟩], []⟩
      rfl rfl,
   (C6_query_error_is_soft_error (fun _ => "decode error") _
      [("project_id", .str "PVT_1"), ("issue_id", .str "I_1")] (.plain "rate limited")).2.2.2
      ⟨"PVT_1", "I_1"⟩ (.str "PVTI_1") rfl rfl⟩

/-- C7: the declared schemas. `list_projects_v2` declares exactly `owner` and `owner_type`,
`get_project_v2` exactly `project_id`, `get_issue_node_id` exactly `owner`, `repo` and
`issue_number` (a number), `add_issue_to_project_v2` exactly `project_id` and `issue_id`;
every declared property is required; the read-only hint is true for the first three tools and
false for `add_issue_to_project_v2`. -/
theorem C7_tool_schemas (t : String → String → String) :
    ((ListProjectV2.tool t).Name = "list_projects_v2"
      ∧ (ListProjectV2.tool t).InputSchema.Properties.map (fun kv => (kv.1, kv.2.type))
          = [("owner", "string"), ("owner_type", "string")]
      ∧ (ListProjectV2.tool t).InputSchema.Required = ["owner", "owner_type"]
      ∧ (ListProjectV2.tool t).Annotations.ReadOnlyHint = some true)
    ∧ ((GetProjectV2.tool t).Name = "get_project_v2"
      ∧ (GetProjectV2.tool t).InputSchema.Properties.map (fun kv => (kv.1, kv.2.type))
          = [("project_id", "string")]
      ∧ (GetProjectV2.tool t).InputSchema.Required = ["project_id"]
      ∧ (GetProjectV2.tool t).Annotations.ReadOnlyHint = some true)
    ∧ ((GetIssueNodeId.tool t).Name = "get_issue_node_id"
      ∧ (GetIssueNodeId.tool t).InputSchema.Properties.map (fun kv => (kv.1, kv.2.type))
          = [("owner", "string"), ("repo", "string"), ("issue_number", "number")]
      ∧ (GetIssueNodeId.tool t).InputSchema.Required = ["owner", "repo", "issue_number"]
      ∧ (GetIssueNodeId.tool t).Annotations.ReadOnlyHint = some true)
    ∧ ((AddIssueToProjectV2.tool t).Name = "add_issue_to_project_v2"
      ∧ (AddIssueToProjectV2.tool t).InputSchema.Properties.map (fun kv => (kv.1, kv.2.type))
          = [("project_id", "string"), ("issue_id", "string")]
      ∧ (AddIssueToProjectV2.tool t).InputSchema.Required = ["project_id", "issue_id"]
      ∧ (AddIssueToProjectV2.tool t).Annotations.ReadOnlyHint = some false) :=
  ⟨⟨rfl, rfl, rfl, rfl⟩, ⟨rfl, rfl, rfl, rfl⟩, ⟨rfl, rfl, rfl, rfl⟩, ⟨rfl, rfl, rfl, rfl⟩⟩

/-- C8: after a successful list query that left the organization nodes `O` and the user nodes
`U`, the `list_projects_v2` handler returns, with a nil hard error, the text
`formatProjectsV2Response O` when `owner_type` is "organization", whatever `U` is, and the
text `formatProjectsV2Response U` when `owner_type` is "user", whatever `O` is. -/
theorem C8_owner_type_selects_branch (errText : List Mismatch → String) (client : Client)
    (args : Arguments) (params : ListParams) (O U : List ProjectNode)
    (hbind : decodeListParams args = .ok params)
    (hquery : client.QueryList [("login", .String params.Owner)]
      = ({ OrganizationNodes := O, UserNodes := U }, none)) :
    (params.OwnerType = "organization" →
      (ListProjectV2.handler errText (.ok client) args).result
        = some (NewToolResultText (formatProjectsV2Response O)))
    ∧ (params.OwnerType = "user" →
      (ListProjectV2.handler errText (.ok client) args).result
        = some (NewToolResultText (formatProjectsV2Response U)))
    ∧ (ListProjectV2.handler errText (.ok client) args).err = none := by
  refine ⟨fun h => ?_, fun h => ?_, ?_⟩
  · simp [ListProjectV2.handler, hbind, hquery, h]
  · simp [ListProjectV2.handler, hbind, hquery, h]
  · by_cases h : params.OwnerType = "organization" <;>
      simp [ListProjectV2.handler, hbind, hquery, h]

/-- C8 at a response with one organization project and an empty user branch, read with
`owner_type` "user": the report is the empty one and the organization project is not in it. -/
theorem C8_owner_type_selects_branch_witness :
    (ListProjectV2.handler (fun _ => "decode error")
        (.ok (stubClient (⟨[⟨.str "PVT_1", "Roadmap", 7, "https://x/7", "OPEN"⟩], []⟩, none)
          (ProjectV2.zero, none) (⟨.nil, 0, ""⟩, none) (.nil, none)))
        [("owner", .str "octo"), ("owner_type", .str "user")]).result
      = some (NewToolResultText "No Projects v2 found.") :=
  ((C8_owner_type_selects_branch (fun _ => "decode error")
    (stubClient (⟨[⟨.str "PVT_1", "Roadmap", 7, "https://x/7", "OPEN"⟩], []⟩, none)
      (ProjectV2.zero, none) (⟨.nil, 0, ""⟩, none) (.nil, none))
    [("owner", .str "octo"), ("owner_type", .str "user")] ⟨"octo", "user"⟩
    [⟨.str "PVT_1", "Roadmap", 7, "https://x/7", "OPEN"⟩] [] rfl rfl).2.1 rfl).trans
    (by decide)

/-- C9: when the node query succeeds and leaves the `ProjectV2` record zero-valued, the
`get_project_v2` handler returns a text result (not an error result) and a nil hard error; the
text is `formatSingleProjectV2Response` of the zero record: the header and the ID, State,
Public and URL lines of the zero values, and no custom-field section. -/
theorem C9_GetProjectV2_zero_record (errText : List Mismatch → String) (client : Client)
    (args : Arguments) (params : GetParams)
    (hbind : decodeGetParams args = .ok params)
    (hquery : client.QueryNode [("id", .ID (.str params.ProjectID))] = (ProjectV2.zero, none)) :
    GetProjectV2.handler errText (.ok client) args
        = { result := some (NewToolResultText (formatSingleProjectV2Response ProjectV2.zero)),
            err := none,
            trace := [.GetGQLClient, .Query .node [("id", .ID (.str params.ProjectID))]] }
      ∧ (NewToolResultText (formatSingleProjectV2Response ProjectV2.zero)).IsError = false
      ∧ formatSingleProjectV2Response ProjectV2.zero
          = "**** (#0)\n- ID: %!s(<nil>)\n- State: \n- Public: false\n- URL: \n" := by
  refine ⟨?_, rfl, by decide⟩
  simp [GetProjectV2.handler, hbind, hquery]

/-- C9 at the project id "PVT_missing". -/
theorem C9_GetProjectV2_zero_record_witness :
    (GetProjectV2.handler (fun _ => "decode error")
        (.ok (stubClient (⟨[], []⟩, none) (ProjectV2.zero, none) (⟨.nil, 0, ""⟩, none)
          (.nil, none)))
        [("project_id", .str "PVT_missing")]).result
      = some (NewToolResultText
          "**** (#0)\n- ID: %!s(<nil>)\n- State: \n- Public: false\n- URL: \n") :=
  (congrArg Run.result (C9_GetProjectV2_zero_record (fun _ => "decode error")
    (stubClient (⟨[], []⟩, none) (ProjectV2.zero, none) (⟨.nil, 0, ""⟩, none) (.nil, none))
    [("project_id", .str "PVT_missing")] ⟨"PVT_missing"⟩ rfl rfl).1).trans (by decide)

/-- C10: when the caller's bag holds the strings `projectId` under `project_id` and `issueId`
under `issue_id`, and the mutation succeeds and returns the item id `item`, the
`add_issue_to_project_v2` handler returns the text result
"Successfully added issue to project v2. Item ID: " followed by `item` verbatim, with a nil
hard error, and the one mutation it issued had the input mapping `projectId` to the caller's
project id and `contentId` to the caller's issue id. -/
theorem C10_AddIssueToProjectV2_confirmation (errText : List Mismatch → String)
    (client : Client) (args : Arguments) (projectId issueId item : String)
    (hproject : args.lookup "project_id" = some (.str projectId))
    (hissue : args.lookup "issue_id" = some (.str issueId))
    (hmutate : client.MutateAddItem
        [("projectId", .ID (.str projectId)), ("contentId", .ID (.str issueId))]
      = (.str item, none)) :
    AddIssueToProjectV2.handler errText (.ok client) args
      = { result := some (NewToolResultText
            ("Successfully added issue to project v2. Item ID: " ++ item)),
          err := none,
          trace := [.GetGQLClient, .Mutate
            [("projectId", .ID (.str projectId)), ("contentId", .ID (.str issueId))]] } := by
  have hbind : decodeAddParams args = .ok { ProjectID := projectId, IssueID := issueId } := by
    simp [decodeAddParams, mapstructure.decodeString, mapstructure.lookupKey, hproject, hissue,
      mapstructure.errOf, mapstructure.valOf]
  simp [AddIssueToProjectV2.handler, hbind, hmutate, ID.fmt_s]

/-- C10 at the item id "PVTI_abc123". -/
theorem C10_AddIssueToProjectV2_confirmation_witness :
    AddIssueToProjectV2.handler (fun _ => "decode error")
        (.ok (stubClient (⟨[], []⟩, none) (ProjectV2.zero, none) (⟨.nil, 0, ""⟩, none)
          (.str "PVTI_abc123", none)))
        [("project_id", .str "PVT_1"), ("issue_id", .str "I_kwDOA")]
      = { result := some (NewToolResultText
            "Successfully added issue to project v2. Item ID: PVTI_abc123"),
          err := none,
          trace := [.GetGQLClient, .Mutate
            [("projectId", .ID (.str "PVT_1")), ("contentId", .ID (.str "I_kwDOA"))]] } :=
  C10_AddIssueToProjectV2_confirmation (fun _ => "decode error")
    (stubClient (⟨[], []⟩, none) (ProjectV2.zero, none) (⟨.nil, 0, ""⟩, none)
      (.str "PVTI_abc123", none))
    [("project_id", .str "PVT_1"), ("issue_id", .str "I_kwDOA")] "PVT_1" "I_kwDOA"
    "PVTI_abc123" (by decide) (by decide) rfl

/-- The long s (U+017F) folds to `s`: a key written with it binds `issue_id`, so a number under
it is a decoding error of the `add_issue_to_project_v2` parameters. -/
theorem decodeAddParams_long_s_key :
    decodeAddParams [("project_id", .str "PVT_1"),
        (String.mk ['i', Char.ofNat 0x017F, Char.ofNat 0x017F, 'u', 'e', '_', 'i', 'd'], .num 5)]
      = .error [⟨"issue_id", "string", .num 5⟩] := by
  rfl

end Projects
